import Mathlib

/-!
Shallow embedding of the expenses HTTP handler repository.

The repository holds two handler files implementing the same pattern:

* `src/api/expenses.js` (embedded below in namespace `Api`): an ES-module
  handler with a seeded in-memory array, a required-field check using the
  JavaScript `in` operator, `parseFloat` plus a NaN / non-positive check on
  `amount`, defaulting of `category` and `date` via `||`, integer ids assigned
  as max existing id + 1 (or 1 on an empty collection), and a GET that serves
  a reversed copy of the array together with a `total` count.

* `src/unnamed/part_000` (embedded below in namespace `Legacy`): a
  `module.exports` handler with an empty initial array, a truthiness
  required-field check on `description` and `amount`, no numeric validation
  of the parsed amount, string ids from `Date.now().toString()`, records
  without a `category` field, and a GET that serves the array as-is under a
  `message`/`data` object with no `total` field.

JavaScript numbers are modelled by `JsNum` (NaN, the two infinities, or a
finite rational); JavaScript scalar values appearing in request bodies and
records by `JsVal`.  Request bodies are JSON objects whose relevant fields
(`amount`, `description`, `category`, `date`) are modelled as optional
values: `none` models an absent key, matching both the `in` operator and
undefined-is-falsy destructuring.  The current date and the millisecond clock
are oracle parameters threaded into the handlers.  `parseFloat` is modelled
on strings by the ECMAScript grammar (optional whitespace and sign, the
`Infinity` literal, decimal digits with optional fraction and exponent,
longest valid prefix, NaN when no prefix parses), with exact rational
arithmetic in place of double rounding.
-/

/-- A JavaScript number: NaN, positive or negative infinity, or a finite
value, the finite values modelled exactly as rationals. -/
inductive JsNum where
  | nan : JsNum
  | inf : JsNum
  | neginf : JsNum
  | fin (q : ℚ) : JsNum
deriving DecidableEq, Repr

/-- Models the JavaScript `isNaN` test on a number. -/
def JsNum.isNan : JsNum → Bool
  | .nan => true
  | _ => false

/-- Models the JavaScript comparison `x <= 0` on a number: false on NaN and
positive infinity, true on negative infinity, and the rational comparison on
finite values. -/
def JsNum.leZero : JsNum → Bool
  | .nan => false
  | .inf => false
  | .neginf => true
  | .fin q => q ≤ 0

/-- A scalar JavaScript value as it appears in a parsed JSON body field or in
a stored record field. -/
inductive JsVal where
  | str (s : String) : JsVal
  | num (n : JsNum) : JsVal
  | bool (b : Bool) : JsVal
  | null : JsVal
deriving DecidableEq, Repr

/-- JavaScript truthiness of a value: false for the empty string, zero, NaN,
`false` and `null`, true otherwise. -/
def JsVal.truthy : JsVal → Bool
  | .str s => s ≠ ""
  | .num .nan => false
  | .num .inf => true
  | .num .neginf => true
  | .num (.fin q) => q ≠ 0
  | .bool b => b
  | .null => false

/-- Models the JavaScript expression `v || d` applied to an object member
that may be absent (`none`, i.e. undefined, which is falsy): the member value
when it is present and truthy, the default otherwise. -/
def jsOrDefault (v : Option JsVal) (d : JsVal) : JsVal :=
  match v with
  | some x => if x.truthy then x else d
  | none => d

/-- Numeric value of a decimal digit character. -/
def digitVal (c : Char) : ℕ := c.toNat - 48

/-- The natural number denoted by a list of decimal digit characters read
left to right (0 on the empty list). -/
def digitsToNat (ds : List Char) : ℕ := ds.foldl (fun a c => 10 * a + digitVal c) 0

/-- Decimal digit test used by the `parseFloat` model. -/
def isDigitChar (c : Char) : Bool := decide ('0' ≤ c) && decide (c ≤ '9')

/-- Parses the longest decimal-magnitude prefix of a character list:
digits, an optional fraction part and an optional exponent part, exactly as
the ECMAScript `parseFloat` grammar; `none` when no digit is found before and
after the decimal point. -/
def parseMagnitude (cs : List Char) : Option ℚ :=
  let ip := cs.takeWhile isDigitChar
  let rest := cs.dropWhile isDigitChar
  let fp := match rest with
    | '.' :: t => t.takeWhile isDigitChar
    | _ => []
  let rest2 := match rest with
    | '.' :: t => t.dropWhile isDigitChar
    | _ => rest
  if ip.isEmpty && fp.isEmpty then none
  else
    let base : ℚ := (digitsToNat ip : ℚ) + (digitsToNat fp : ℚ) / ((10 : ℚ) ^ fp.length)
    let expo : ℤ := match rest2 with
      | 'e' :: '+' :: u => (digitsToNat (u.takeWhile isDigitChar) : ℤ)
      | 'e' :: '-' :: u => -(digitsToNat (u.takeWhile isDigitChar) : ℤ)
      | 'e' :: u => (digitsToNat (u.takeWhile isDigitChar) : ℤ)
      | 'E' :: '+' :: u => (digitsToNat (u.takeWhile isDigitChar) : ℤ)
      | 'E' :: '-' :: u => -(digitsToNat (u.takeWhile isDigitChar) : ℤ)
      | 'E' :: u => (digitsToNat (u.takeWhile isDigitChar) : ℤ)
      | _ => 0
    some (base * (10 : ℚ) ^ expo)

/-- Models the ECMAScript `parseFloat` applied to a string: skip leading
whitespace, read an optional sign, then either the `Infinity` literal or a
decimal magnitude; NaN when nothing parses. -/
def parseFloatString (s : String) : JsNum :=
  let cs := s.toList.dropWhile Char.isWhitespace
  let neg : Bool := match cs with
    | '-' :: _ => true
    | _ => false
  let cs2 := match cs with
    | '-' :: t => t
    | '+' :: t => t
    | _ => cs
  if cs2.take 8 = "Infinity".toList then
    if neg then JsNum.neginf else JsNum.inf
  else
    match parseMagnitude cs2 with
    | none => JsNum.nan
    | some q => JsNum.fin (if neg then -q else q)

/-- Models the JavaScript `parseFloat` applied to an arbitrary value: the
value is converted to a string first, so numbers pass through, while
booleans and null stringify to non-numeric text and give NaN. -/
def parseFloat : JsVal → JsNum
  | .str s => parseFloatString s
  | .num n => n
  | .bool _ => JsNum.nan
  | .null => JsNum.nan

/-- A parsed JSON request body, restricted to the four field names the
handlers ever read; `none` models an absent key. -/
structure Body where
  amount : Option JsVal
  description : Option JsVal
  category : Option JsVal
  date : Option JsVal
deriving DecidableEq, Repr

/-- The body with no fields, which `JSON.parse` failure is mapped to. -/
def emptyBody : Body := ⟨none, none, none, none⟩

namespace Api

/-!
Embedding of `src/api/expenses.js`.  The mutable module-level array
`expenses` is threaded explicitly: each handler takes the collection before
the request and returns the response together with the collection after it.
The current date string (`new Date().toISOString().split('T')[0]`) is the
oracle parameter `today`.
-/

/-- An expense record as built by `handlePOST` in `src/api/expenses.js` and
as seeded at module load: all five fields are always present. -/
structure Expense where
  id : ℕ
  amount : JsNum
  description : JsVal
  category : JsVal
  date : JsVal
deriving DecidableEq, Repr

/-- The two sample records the module-level `expenses` array is seeded
with. -/
def seedExpenses : List Expense :=
  [ ⟨1, JsNum.fin 50, JsVal.str "Groceries for the week",
      JsVal.str "Food", JsVal.str "2025-11-28"⟩,
    ⟨2, JsNum.fin (63 / 4), JsVal.str "Monthly streaming subscription",
      JsVal.str "Entertainment", JsVal.str "2025-12-01"⟩ ]

/-- A response body as serialized by `sendResponse`: one constructor per
object literal the file passes to it. -/
inductive RespBody where
  | getOk (data : List Expense) (total : ℕ) : RespBody
  | postOk (message : String) (expense : Expense) : RespBody
  | missingErr (error : String) (missing : List String) : RespBody
  | amountErr (error : String) : RespBody
  | methodErr (error : String) : RespBody
  | noContent : RespBody
deriving DecidableEq, Repr

/-- A response: the status code set by `sendResponse` and the JSON body. -/
structure Response where
  status : ℕ
  body : RespBody
deriving DecidableEq, Repr

/-- Models `parseBody`: the request stream either yields a JSON object body
or fails to parse, and `JSON.parse` failure resolves to the empty object. -/
def parseBody (raw : Option Body) : Body := raw.getD emptyBody

/-- The `requiredFields` array of `handlePOST`. -/
def requiredFields : List String := ["amount", "description"]

/-- Models the JavaScript `field in newExpense` membership test on the four
known field names. -/
def hasField (b : Body) (f : String) : Bool :=
  if f = "amount" then b.amount.isSome
  else if f = "description" then b.description.isSome
  else if f = "category" then b.category.isSome
  else if f = "date" then b.date.isSome
  else false

/-- The `missingFields` computation of `handlePOST`:
`requiredFields.filter(field => !(field in newExpense))`. -/
def missingFields (b : Body) : List String :=
  requiredFields.filter (fun f => !(hasField b f))

/-- The id computation of `handlePOST`: the running maximum over
`expenses.map(e => e.id)`, with `Math.max` of a nonempty list of naturals
modelled by a fold from 0. -/
def maxId (es : List Expense) : ℕ := es.foldl (fun a e => max a e.id) 0

/-- `const newId = expenses.length > 0 ? Math.max(...expenses.map(e => e.id)) + 1 : 1`. -/
def newId (es : List Expense) : ℕ :=
  if 0 < es.length then maxId es + 1 else 1

/-- `handlePOST` of `src/api/expenses.js`: required-field check, defaulting
of `category` and `date`, amount parsing and validation, record construction
and append. -/
def handlePOST (today : String) (es : List Expense) (body : Body) :
    Response × List Expense :=
  let missing := missingFields body
  if 0 < missing.length then
    (⟨400, RespBody.missingErr "Missing required fields" missing⟩, es)
  else
    let category := jsOrDefault body.category (JsVal.str "Uncategorized")
    let date := jsOrDefault body.date (JsVal.str today)
    let amount := parseFloat (body.amount.getD JsVal.null)
    let dsc := body.description.getD JsVal.null
    if amount.isNan || amount.leZero then
      (⟨400, RespBody.amountErr "Invalid amount. Must be a positive number."⟩, es)
    else
      let record : Expense := ⟨newId es, amount, dsc, category, date⟩
      (⟨201, RespBody.postOk "Expense added successfully" record⟩, es ++ [record])

/-- `handleGET` of `src/api/expenses.js`: serves a reversed copy of the
array (`[...expenses].reverse()`) with `total: expenses.length`, leaving the
array itself untouched. -/
def handleGET (es : List Expense) : Response × List Expense :=
  let sortedExpenses := es.reverse
  (⟨200, RespBody.getOk sortedExpenses es.length⟩, es)

/-- The exported handler of `src/api/expenses.js`: OPTIONS preflight, then
dispatch on the method with a 405 fallback.  No modelled path throws, so the
catch-all 500 branch is unreachable in the embedding. -/
def handler (today : String) (method : String) (raw : Option Body)
    (es : List Expense) : Response × List Expense :=
  if method = "OPTIONS" then (⟨204, RespBody.noContent⟩, es)
  else if method = "GET" then handleGET es
  else if method = "POST" then handlePOST today es (parseBody raw)
  else (⟨405, RespBody.methodErr ("Method " ++ method ++ " Not Allowed")⟩, es)

end Api

/-- Models JavaScript `Number.prototype.toString()` on a nonnegative integer
(the value `Date.now()` yields): its decimal digit string, most significant
digit first, with 0 rendered as the single digit 0. -/
def jsNatToString (n : ℕ) : String :=
  if n = 0 then "0" else String.mk ((Nat.digits 10 n).reverse.map Nat.digitChar)

namespace Legacy

/-!
Embedding of the `module.exports` handler of `src/unnamed/part_000`.  The
module-level `expenses` array starts empty and is threaded explicitly.
Stored records are JavaScript objects built by the object literal at the
POST branch; they are modelled as key/value lists so that the set of keys a
record actually has is part of the model.  The millisecond clock read by
`Date.now()` is the oracle parameter `now`, and the current date string is
the oracle parameter `today`.
-/

/-- A stored record: the key/value object pushed onto `expenses`. -/
def Obj := List (String × JsVal)

instance : DecidableEq Obj := by
  unfold Obj
  infer_instance

/-- A value inside a response JSON object: a scalar, a list of records
(the `data` member), or a single record (the `expense` member). -/
inductive RVal where
  | prim (v : JsVal) : RVal
  | objs (es : List Obj) : RVal
  | obj (e : Obj) : RVal
deriving DecidableEq

/-- A response body: a JSON object (from `res.json`), plain text (from
`res.send`), or nothing (from `res.end`). -/
inductive RBody where
  | json (o : List (String × RVal)) : RBody
  | text (s : String) : RBody
  | empty : RBody
deriving DecidableEq

/-- A response: status code and body. -/
structure Response where
  status : ℕ
  body : RBody
deriving DecidableEq

/-- Truthiness of a destructured member that may be absent: undefined is
falsy. -/
def truthyOpt (v : Option JsVal) : Bool :=
  match v with
  | some x => x.truthy
  | none => false

/-- The object literal of the POST branch: `id` from the clock, the given
`description`, the parsed `amount`, and `date` defaulted via `||`.  There is
no `category` key. -/
def newExpense (now : ℕ) (today : String) (b : Body) : Obj :=
  [ ("id", JsVal.str (jsNatToString now)),
    ("description", b.description.getD JsVal.null),
    ("amount", JsVal.num (parseFloat (b.amount.getD JsVal.null))),
    ("date", jsOrDefault b.date (JsVal.str today)) ]

/-- The `module.exports` handler of `src/unnamed/part_000`: OPTIONS, GET
serving the array under `message`/`data`, POST with the truthiness
required-field check and unvalidated `parseFloat`, and a 405 fallback. -/
def handler (now : ℕ) (today : String) (method : String) (b : Body)
    (es : List Obj) : Response × List Obj :=
  if method = "OPTIONS" then (⟨200, RBody.empty⟩, es)
  else if method = "GET" then
    (⟨200, RBody.json
      [ ("message", RVal.prim (JsVal.str "Data retrieved (In-memory, NOT persistent on Vercel).")),
        ("data", RVal.objs es) ]⟩, es)
  else if method = "POST" then
    if !truthyOpt b.description || !truthyOpt b.amount then
      (⟨400, RBody.json
        [("error", RVal.prim (JsVal.str "Missing required fields: description and amount."))]⟩, es)
    else
      let e := newExpense now today b
      (⟨201, RBody.json
        [ ("message", RVal.prim (JsVal.str "Expense added successfully (In-memory, NOT persistent on Vercel).")),
          ("expense", RVal.obj e) ]⟩, es ++ [e])
  else (⟨405, RBody.text "Method Not Allowed"⟩, es)

end Legacy

/-!
Helper lemmas.
-/

theorem digitChar_inj_of_lt {a b : ℕ} (ha : a < 10) (hb : b < 10)
    (h : Nat.digitChar a = Nat.digitChar b) : a = b := by
  interval_cases a <;> interval_cases b <;> revert h <;> decide

theorem map_digitChar_inj : ∀ (l1 l2 : List ℕ), (∀ d ∈ l1, d < 10) →
    (∀ d ∈ l2, d < 10) → l1.map Nat.digitChar = l2.map Nat.digitChar → l1 = l2 := by
  intro l1
  induction l1 with
  | nil =>
    intro l2 _ _ h
    cases l2 <;> simp_all
  | cons a t ih =>
    intro l2 h1 h2 h
    cases l2 with
    | nil => simp_all
    | cons b t2 =>
      simp only [List.map_cons, List.cons.injEq] at h
      have hab := digitChar_inj_of_lt (h1 a (by simp)) (h2 b (by simp)) h.1
      have ht := ih t2 (fun d hd => h1 d (by simp [hd]))
        (fun d hd => h2 d (by simp [hd])) h.2
      simp [hab, ht]

theorem jsNatToString_data (n : ℕ) :
    (jsNatToString n).data =
      (if n = 0 then [0] else (Nat.digits 10 n).reverse).map Nat.digitChar := by
  unfold jsNatToString
  split <;> rfl

theorem digits_reverse_lt (n : ℕ) :
    ∀ d ∈ (if n = 0 then [0] else (Nat.digits 10 n).reverse), d < 10 := by
  intro d hd
  split at hd
  · simp at hd
    omega
  · rw [List.mem_reverse] at hd
    exact Nat.digits_lt_base (by norm_num) hd

theorem jsNatToString_inj {m n : ℕ} (h : jsNatToString m = jsNatToString n) :
    m = n := by
  have hd : (jsNatToString m).data = (jsNatToString n).data := by rw [h]
  rw [jsNatToString_data, jsNatToString_data] at hd
  have hl := map_digitChar_inj _ _ (digits_reverse_lt m) (digits_reverse_lt n) hd
  by_cases hm : m = 0 <;> by_cases hn : n = 0
  · omega
  · exfalso
    simp [hm, hn] at hl
    have hrev : Nat.digits 10 n = [0] := by
      simpa using (congrArg List.reverse hl).symm
    have hofd := Nat.ofDigits_digits 10 n
    rw [hrev] at hofd
    simp [Nat.ofDigits] at hofd
    omega
  · exfalso
    simp [hm, hn] at hl
    have hrev : Nat.digits 10 m = [0] := by
      simpa using congrArg List.reverse hl
    have hofd := Nat.ofDigits_digits 10 m
    rw [hrev] at hofd
    simp [Nat.ofDigits] at hofd
    omega
  · simp [hm, hn] at hl
    exact hl

theorem Api.le_foldl_max (es : List Api.Expense) (a : ℕ) :
    a ≤ es.foldl (fun x e => max x e.id) a := by
  induction es generalizing a with
  | nil => simp
  | cons e t ih =>
    simp only [List.foldl_cons]
    exact le_trans (le_max_left a e.id) (ih (max a e.id))

theorem Api.mem_le_foldl_max (es : List Api.Expense) (a : ℕ) {e : Api.Expense}
    (h : e ∈ es) : e.id ≤ es.foldl (fun x e => max x e.id) a := by
  induction es generalizing a with
  | nil => simp at h
  | cons x t ih =>
    simp only [List.foldl_cons]
    rcases List.mem_cons.mp h with h1 | h2
    · subst h1
      exact le_trans (le_max_right a e.id) (Api.le_foldl_max t (max a e.id))
    · exact ih (max a x.id) h2

theorem Api.id_lt_newId {es : List Api.Expense} {e : Api.Expense} (h : e ∈ es) :
    e.id < Api.newId es := by
  have hne : 0 < es.length := List.length_pos.mpr (List.ne_nil_of_mem h)
  have hle : e.id ≤ Api.maxId es := Api.mem_le_foldl_max es 0 h
  unfold Api.newId
  rw [if_pos hne]
  omega

theorem Api.maxId_append (es : List Api.Expense) (e : Api.Expense) :
    Api.maxId (es ++ [e]) = max (Api.maxId es) e.id := by
  unfold Api.maxId
  rw [List.foldl_append]
  rfl

/-- Characterization of the success path of `Api.handlePOST`: when no
required field is missing and the parsed amount passes the numeric check,
the handler returns 201 with the constructed record and appends it. -/
theorem Api.handlePOST_success (today : String) (es : List Api.Expense) (b : Body)
    (h1 : Api.missingFields b = [])
    (h2 : (parseFloat (b.amount.getD JsVal.null)).isNan = false)
    (h3 : (parseFloat (b.amount.getD JsVal.null)).leZero = false) :
    Api.handlePOST today es b =
      (⟨201, Api.RespBody.postOk "Expense added successfully"
        ⟨Api.newId es, parseFloat (b.amount.getD JsVal.null),
          b.description.getD JsVal.null,
          jsOrDefault b.category (JsVal.str "Uncategorized"),
          jsOrDefault b.date (JsVal.str today)⟩⟩,
       es ++ [⟨Api.newId es, parseFloat (b.amount.getD JsVal.null),
          b.description.getD JsVal.null,
          jsOrDefault b.category (JsVal.str "Uncategorized"),
          jsOrDefault b.date (JsVal.str today)⟩]) := by
  unfold Api.handlePOST
  simp [h1, h2, h3]

/-- In every branch of `Api.handlePOST` other than the 201 success branch,
the collection comes back unchanged. -/
theorem Api.handlePOST_not_201_frame (today : String) (es : List Api.Expense)
    (b : Body) (h : (Api.handlePOST today es b).1.status ≠ 201) :
    (Api.handlePOST today es b).2 = es := by
  by_cases hm : 0 < (Api.missingFields b).length
  · simp [Api.handlePOST, hm]
  · by_cases ha : ((parseFloat (b.amount.getD JsVal.null)).isNan ||
        (parseFloat (b.amount.getD JsVal.null)).leZero) = true
    · simp [Api.handlePOST, hm, ha]
    · exact absurd (by simp [Api.handlePOST, hm, ha]) h

/-- In every branch of the `Api.handler` dispatcher other than a successful
POST, the collection comes back unchanged. -/
theorem Api.handler_not_201_frame (today method : String) (raw : Option Body)
    (es : List Api.Expense) (h : (Api.handler today method raw es).1.status ≠ 201) :
    (Api.handler today method raw es).2 = es := by
  by_cases h1 : method = "OPTIONS"
  · simp [Api.handler, h1]
  · by_cases h2 : method = "GET"
    · simp [Api.handler, h1, h2, Api.handleGET]
    · by_cases h3 : method = "POST"
      · simp only [Api.handler, h1, h2, h3] at h ⊢
        simp only [if_false, if_true, ite_false, ite_true] at h ⊢
        exact Api.handlePOST_not_201_frame today es (Api.parseBody raw) h
      · simp [Api.handler, h1, h2, h3]

/-- Inversion of `Api.handlePOST`: a `postOk` body only arises from the 201
success branch, and pins down the constructed record, the appended
collection and the status. -/
theorem Api.handlePOST_postOk_inv (today : String) (es : List Api.Expense)
    (b : Body) (m : String) (e : Api.Expense)
    (h : (Api.handlePOST today es b).1.body = Api.RespBody.postOk m e) :
    e = ⟨Api.newId es, parseFloat (b.amount.getD JsVal.null),
        b.description.getD JsVal.null,
        jsOrDefault b.category (JsVal.str "Uncategorized"),
        jsOrDefault b.date (JsVal.str today)⟩ ∧
    (Api.handlePOST today es b).2 = es ++ [e] ∧
    (Api.handlePOST today es b).1.status = 201 := by
  by_cases hm : 0 < (Api.missingFields b).length
  · exfalso
    simp [Api.handlePOST, hm] at h
  · by_cases ha : ((parseFloat (b.amount.getD JsVal.null)).isNan ||
        (parseFloat (b.amount.getD JsVal.null)).leZero) = true
    · exfalso
      simp [Api.handlePOST, hm, ha] at h
    · simp [Api.handlePOST, hm, ha] at h ⊢
      simp [h.2.symm]

/-- The absent required fields computed by `Api.missingFields`, as an
explicit case split on the two required members. -/
theorem Api.missingFields_eq (b : Body) :
    Api.missingFields b =
      (if b.amount.isSome then [] else ["amount"]) ++
      (if b.description.isSome then [] else ["description"]) := by
  rcases b with ⟨a, d, c, dt⟩
  cases a <;> cases d <;> rfl

/-- In every branch of the `Legacy` handler other than a successful POST,
the collection comes back unchanged. -/
theorem Legacy.legacyHandler_not_201_frame (now : ℕ) (today method : String) (b : Body)
    (es : List Legacy.Obj)
    (h : (Legacy.handler now today method b es).1.status ≠ 201) :
    (Legacy.handler now today method b es).2 = es := by
  by_cases h1 : method = "OPTIONS"
  · simp [Legacy.handler, h1]
  · by_cases h2 : method = "GET"
    · simp [Legacy.handler, h1, h2]
    · by_cases h3 : method = "POST"
      · by_cases h4 : (!Legacy.truthyOpt b.description || !Legacy.truthyOpt b.amount) = true
        · simp [Legacy.handler, h1, h2, h3, h4]
        · exact absurd (by simp [Legacy.handler, h1, h2, h3, h4]) h
      · simp [Legacy.handler, h1, h2, h3]

theorem Api.maxId_lt_newId (es : List Api.Expense) :
    Api.maxId es < Api.newId es := by
  unfold Api.newId
  split
  · omega
  · rename_i h
    have hnil : es = [] := List.length_eq_zero.mp (by omega)
    subst hnil
    simp [Api.maxId]

theorem Api.newId_append_record (es : List Api.Expense) (a : JsNum)
    (d c dt : JsVal) :
    Api.newId (es ++ [⟨Api.newId es, a, d, c, dt⟩]) = Api.newId es + 1 := by
  have h1 := Api.maxId_lt_newId es
  have h2 := Api.maxId_append es ⟨Api.newId es, a, d, c, dt⟩
  have h3 : 0 < (es ++ [(⟨Api.newId es, a, d, c, dt⟩ : Api.Expense)]).length := by
    simp
  rw [Api.newId, if_pos h3, h2]
  show max (Api.maxId es) (Api.newId es) + 1 = Api.newId es + 1
  omega

theorem Api.newId_not_mem (es : List Api.Expense) :
    Api.newId es ∉ es.map Api.Expense.id := by
  intro hmem
  rcases List.mem_map.mp hmem with ⟨e, he, hid⟩
  have := Api.id_lt_newId he
  omega

theorem Api.handlePOST_nodup (today : String) (es : List Api.Expense) (b : Body)
    (h : (es.map Api.Expense.id).Nodup) :
    ((Api.handlePOST today es b).2.map Api.Expense.id).Nodup := by
  by_cases hm : 0 < (Api.missingFields b).length
  · simpa [Api.handlePOST, hm] using h
  · by_cases ha : ((parseFloat (b.amount.getD JsVal.null)).isNan ||
        (parseFloat (b.amount.getD JsVal.null)).leZero) = true
    · simpa [Api.handlePOST, hm, ha] using h
    · have hmiss : Api.missingFields b = [] := List.length_eq_zero.mp (by omega)
      simp only [Bool.or_eq_true, not_or, Bool.not_eq_true] at ha
      rw [Api.handlePOST_success today es b hmiss ha.1 ha.2]
      rw [List.map_append]
      simp [List.nodup_append, h]
      intro a hmem heq
      have hlt := Api.id_lt_newId hmem
      omega

/-!
Claim theorems.
-/

/-- Claim C1, counterexample: the claim states that a POST whose `amount`
fails to parse (for example the string "abc") returns 400 and does not alter
the collection.  The handler of `src/unnamed/part_000` violates this: a POST
with `amount:"abc"` and a truthy `description` passes its truthiness check,
returns 201, and appends a record whose stored amount is NaN. -/
theorem C1_counterexample :
    (Legacy.handler 7 "2025-12-01" "POST"
        ⟨some (JsVal.str "abc"), some (JsVal.str "Lunch"), none, none⟩ []).1.status = 201 ∧
    (Legacy.handler 7 "2025-12-01" "POST"
        ⟨some (JsVal.str "abc"), some (JsVal.str "Lunch"), none, none⟩ []).2 =
      [[("id", JsVal.str "7"), ("description", JsVal.str "Lunch"),
        ("amount", JsVal.num JsNum.nan), ("date", JsVal.str "2025-12-01")]] := by
  constructor
  · decide
  · simp [Legacy.handler, Legacy.newExpense, jsNatToString, Nat.digits_def']
    decide

/-- Claim C1, amended: in `src/api/expenses.js`, for every POST whose body
has `amount` and `description` present, the numeric check rejects exactly
the requests whose parsed amount is NaN or non-positive, with a 400 response
and an unchanged collection; every other such request is not rejected: it
returns 201 and stores the parsed amount, which is neither NaN nor
non-positive (though it may be infinite rather than finite).  The handler of
`src/unnamed/part_000` performs no such numeric check. -/
theorem C1_amended (today : String) (es : List Api.Expense) (b : Body)
    (hamt : b.amount.isSome = true) (hdsc : b.description.isSome = true) :
    (((parseFloat (b.amount.getD JsVal.null)).isNan = true ∨
        (parseFloat (b.amount.getD JsVal.null)).leZero = true) →
      (Api.handlePOST today es b).1.status = 400 ∧
      (Api.handlePOST today es b).2 = es) ∧
    ((parseFloat (b.amount.getD JsVal.null)).isNan = false →
      (parseFloat (b.amount.getD JsVal.null)).leZero = false →
      (Api.handlePOST today es b).1.status = 201 ∧
      (Api.handlePOST today es b).2 =
        es ++ [⟨Api.newId es, parseFloat (b.amount.getD JsVal.null),
          b.description.getD JsVal.null,
          jsOrDefault b.category (JsVal.str "Uncategorized"),
          jsOrDefault b.date (JsVal.str today)⟩]) := by
  have hmiss : Api.missingFields b = [] := by
    rw [Api.missingFields_eq, hamt, hdsc]
    rfl
  constructor
  · intro h
    have ha : ((parseFloat (b.amount.getD JsVal.null)).isNan ||
        (parseFloat (b.amount.getD JsVal.null)).leZero) = true := by
      rcases h with h | h <;> simp [h]
    simp [Api.handlePOST, hmiss, ha]
  · intro h2 h3
    rw [Api.handlePOST_success today es b hmiss h2 h3]
    simp

/-- Witness for the amended claim C1: on the seeded store, a POST with
`amount:"abc"` and `description:"x"` is rejected by the numeric check of
`src/api/expenses.js` with a 400 and an unchanged collection. -/
theorem C1_witness :
    (Api.handlePOST "2025-12-01" Api.seedExpenses
        ⟨some (JsVal.str "abc"), some (JsVal.str "x"), none, none⟩).1.status = 400 ∧
    (Api.handlePOST "2025-12-01" Api.seedExpenses
        ⟨some (JsVal.str "abc"), some (JsVal.str "x"), none, none⟩).2 = Api.seedExpenses :=
  (C1_amended "2025-12-01" Api.seedExpenses
      ⟨some (JsVal.str "abc"), some (JsVal.str "x"), none, none⟩
      (by decide) (by decide)).1 (Or.inl (by decide))

/-- Claim C2, counterexample: the claim states that the 400 response
reports which of the required fields are missing.  In the handler of
`src/unnamed/part_000` the error body is one fixed string naming both
`description` and `amount`: a POST whose `amount` is present (20) and whose
`description` alone is absent receives exactly the same 400 body as a POST
missing both fields, and that body names `amount` as missing even though it
is present — so the response does not report which required fields are
missing. -/
theorem C2_counterexample :
    ((⟨some (JsVal.num (JsNum.fin 20)), none, none, none⟩ : Body).amount.isSome = true) ∧
    (Legacy.handler 7 "2025-12-01" "POST"
        ⟨some (JsVal.num (JsNum.fin 20)), none, none, none⟩ []).1 =
      ⟨400, Legacy.RBody.json [("error", Legacy.RVal.prim
        (JsVal.str "Missing required fields: description and amount."))]⟩ ∧
    (Legacy.handler 7 "2025-12-01" "POST" emptyBody []).1 =
      ⟨400, Legacy.RBody.json [("error", Legacy.RVal.prim
        (JsVal.str "Missing required fields: description and amount."))]⟩ := by
  refine ⟨rfl, by decide, by decide⟩

/-- Claim C2, amended: a POST in which `description` or `amount` is absent
fails with 400 and leaves the collection unchanged in both handlers; in
`src/api/expenses.js` the response lists exactly the absent required fields
(in particular `description` is listed when `description` is absent, and a
present field is never listed), while the handler of `src/unnamed/part_000`
responds with one fixed error message that always names both `description`
and `amount`, whichever of them is actually missing. -/
theorem C2_amended (today : String) (es : List Api.Expense)
    (b : Body) (h : b.amount = none ∨ b.description = none) :
    (Api.handlePOST today es b).1 =
      ⟨400, Api.RespBody.missingErr "Missing required fields" (Api.missingFields b)⟩ ∧
    (Api.handlePOST today es b).2 = es ∧
    (b.amount = none → "amount" ∈ Api.missingFields b) ∧
    (b.description = none → "description" ∈ Api.missingFields b) ∧
    (b.amount.isSome = true → "amount" ∉ Api.missingFields b) ∧
    (b.description.isSome = true → "description" ∉ Api.missingFields b) ∧
    (∀ (now : ℕ) (ltoday : String) (les : List Legacy.Obj),
      (Legacy.handler now ltoday "POST" b les).1 =
        ⟨400, Legacy.RBody.json [("error", Legacy.RVal.prim
          (JsVal.str "Missing required fields: description and amount."))]⟩ ∧
      (Legacy.handler now ltoday "POST" b les).2 = les) := by
  have hlen : 0 < (Api.missingFields b).length := by
    rw [Api.missingFields_eq]
    rcases h with h | h <;> rw [h] <;> cases b.amount <;> cases b.description <;> simp
  refine ⟨by simp [Api.handlePOST, hlen], by simp [Api.handlePOST, hlen], ?_, ?_, ?_, ?_, ?_⟩
  · intro ha
    rw [Api.missingFields_eq, ha]
    simp
  · intro hd
    rw [Api.missingFields_eq, hd]
    cases b.amount <;> simp
  · intro ha
    rw [Api.missingFields_eq, ha]
    cases b.description <;> simp
  · intro hd
    rw [Api.missingFields_eq, hd]
    cases b.amount <;> simp
  · intro now ltoday les
    have hcond : (!Legacy.truthyOpt b.description || !Legacy.truthyOpt b.amount) = true := by
      rcases h with ha | hd
      · have : Legacy.truthyOpt b.amount = false := by
          rw [ha]
          rfl
        simp [this]
      · have : Legacy.truthyOpt b.description = false := by
          rw [hd]
          rfl
        simp [this]
    constructor <;> simp [Legacy.handler, hcond]

/-- Witness for the amended claim C2: a POST with `amount: 20` and no
`description` returns 400 listing exactly `description` in
`src/api/expenses.js` with the seeded store unchanged, and a POST with
`description: "Tea"` and no `amount` receives the fixed 400 message of the
`src/unnamed/part_000` handler with its collection unchanged. -/
theorem C2_witness :
    (Api.handlePOST "2025-12-01" Api.seedExpenses
        ⟨some (JsVal.num (JsNum.fin 20)), none, none, none⟩).1 =
      ⟨400, Api.RespBody.missingErr "Missing required fields" ["description"]⟩ ∧
    (Api.handlePOST "2025-12-01" Api.seedExpenses
        ⟨some (JsVal.num (JsNum.fin 20)), none, none, none⟩).2 = Api.seedExpenses ∧
    "description" ∈ Api.missingFields ⟨some (JsVal.num (JsNum.fin 20)), none, none, none⟩ ∧
    (Legacy.handler 7 "2025-12-01" "POST"
        ⟨none, some (JsVal.str "Tea"), none, none⟩ []).1 =
      ⟨400, Legacy.RBody.json [("error", Legacy.RVal.prim
        (JsVal.str "Missing required fields: description and amount."))]⟩ ∧
    (Legacy.handler 7 "2025-12-01" "POST"
        ⟨none, some (JsVal.str "Tea"), none, none⟩ []).2 = [] := by
  have h1 := C2_amended "2025-12-01" Api.seedExpenses
    ⟨some (JsVal.num (JsNum.fin 20)), none, none, none⟩ (Or.inr rfl)
  have h2 := C2_amended "2025-12-01" Api.seedExpenses
    ⟨none, some (JsVal.str "Tea"), none, none⟩ (Or.inl rfl)
  exact ⟨h1.1.trans (by decide), h1.2.1, h1.2.2.2.1 rfl,
    (h2.2.2.2.2.2.2 7 "2025-12-01" []).1, (h2.2.2.2.2.2.2 7 "2025-12-01" []).2⟩

/-- Claim C3: ids in the collection stay pairwise distinct across every
POST of `src/api/expenses.js`; two sequential successful POSTs there receive
strictly increasing ids, each new to the collection it is appended to; and
in `src/unnamed/part_000` the id is the decimal string of the millisecond
clock, so two POSTs at strictly increasing clock readings receive distinct
ids.  All of this is under single-threaded sequential execution, as the
claim assumes. -/
theorem C3_unique_increasing_ids :
    (∀ (today : String) (es : List Api.Expense) (b : Body),
      (es.map Api.Expense.id).Nodup →
      ((Api.handlePOST today es b).2.map Api.Expense.id).Nodup) ∧
    (∀ (today1 today2 : String) (es : List Api.Expense) (b1 b2 : Body)
        (m1 m2 : String) (e1 e2 : Api.Expense),
      (Api.handlePOST today1 es b1).1.body = Api.RespBody.postOk m1 e1 →
      (Api.handlePOST today2 (Api.handlePOST today1 es b1).2 b2).1.body =
        Api.RespBody.postOk m2 e2 →
      e1.id < e2.id ∧ e1.id ∉ es.map Api.Expense.id ∧
        e2.id ∉ (Api.handlePOST today1 es b1).2.map Api.Expense.id) ∧
    (∀ (now1 now2 : ℕ) (today1 today2 : String) (b1 b2 : Body),
      now1 < now2 →
      (Legacy.newExpense now1 today1 b1).lookup "id" =
        some (JsVal.str (jsNatToString now1)) ∧
      (Legacy.newExpense now2 today2 b2).lookup "id" =
        some (JsVal.str (jsNatToString now2)) ∧
      jsNatToString now1 ≠ jsNatToString now2) := by
  refine ⟨fun today es b h => Api.handlePOST_nodup today es b h, ?_, ?_⟩
  · intro today1 today2 es b1 b2 m1 m2 e1 e2 h1 h2
    obtain ⟨he1, hs1, _⟩ := Api.handlePOST_postOk_inv today1 es b1 m1 e1 h1
    obtain ⟨he2, _, _⟩ := Api.handlePOST_postOk_inv today2
      (Api.handlePOST today1 es b1).2 b2 m2 e2 h2
    have hid1 : e1.id = Api.newId es := by rw [he1]
    have hid2 : e2.id = Api.newId (Api.handlePOST today1 es b1).2 := by rw [he2]
    have hstep : Api.newId (Api.handlePOST today1 es b1).2 = Api.newId es + 1 := by
      rw [hs1, he1]
      exact Api.newId_append_record es _ _ _ _
    refine ⟨by omega, ?_, ?_⟩
    · rw [hid1]
      exact Api.newId_not_mem es
    · rw [hid2]
      exact Api.newId_not_mem (Api.handlePOST today1 es b1).2
  · intro now1 now2 today1 today2 b1 b2 hlt
    refine ⟨rfl, rfl, fun h => ?_⟩
    have := jsNatToString_inj h
    omega

/-- Witness for claim C3: on the seeded store, two sequential valid POSTs
receive ids 3 then 4, each fresh, and the collection ids stay distinct; the
legacy ids for clock readings 5 and 7 are distinct decimal strings. -/
theorem C3_witness :
    ((Api.handlePOST "2025-12-01" Api.seedExpenses
        ⟨some (JsVal.num (JsNum.fin 20)), some (JsVal.str "Coffee"), none, none⟩).2.map
          Api.Expense.id).Nodup ∧
    ((3 : ℕ) < 4 ∧
      (3 : ℕ) ∉ Api.seedExpenses.map Api.Expense.id ∧
      (4 : ℕ) ∉ (Api.handlePOST "2025-12-01" Api.seedExpenses
        ⟨some (JsVal.num (JsNum.fin 20)), some (JsVal.str "Coffee"), none, none⟩).2.map
          Api.Expense.id) ∧
    jsNatToString 5 ≠ jsNatToString 7 := by
  refine ⟨?_, ?_, ?_⟩
  · exact C3_unique_increasing_ids.1 "2025-12-01" Api.seedExpenses
      ⟨some (JsVal.num (JsNum.fin 20)), some (JsVal.str "Coffee"), none, none⟩ (by decide)
  · exact C3_unique_increasing_ids.2.1 "2025-12-01" "2025-12-02" Api.seedExpenses
      ⟨some (JsVal.num (JsNum.fin 20)), some (JsVal.str "Coffee"), none, none⟩
      ⟨some (JsVal.num (JsNum.fin 20)), some (JsVal.str "Coffee"), none, none⟩
      "Expense added successfully" "Expense added successfully"
      ⟨3, JsNum.fin 20, JsVal.str "Coffee", JsVal.str "Uncategorized", JsVal.str "2025-12-01"⟩
      ⟨4, JsNum.fin 20, JsVal.str "Coffee", JsVal.str "Uncategorized", JsVal.str "2025-12-02"⟩
      (by decide) (by decide)
  · exact (C3_unique_increasing_ids.2.2 5 7 "2025-12-01" "2025-12-01"
      emptyBody emptyBody (by decide)).2.2

/-- Claim C4, counterexample: the claim states that a valid POST with
absent `category` stores a record whose `category` is "Uncategorized" and
increases the next list operation's `total`.  In `src/unnamed/part_000` the
POST `{amount: 20, description: "Coffee"}` succeeds with 201 but the stored
record has no `category` key at all, and the subsequent GET body carries no
`total` member. -/
theorem C4_counterexample :
    (Legacy.handler 5 "2025-12-01" "POST"
        ⟨some (JsVal.num (JsNum.fin 20)), some (JsVal.str "Coffee"), none, none⟩ []).1.status = 201 ∧
    ((Legacy.handler 5 "2025-12-01" "POST"
        ⟨some (JsVal.num (JsNum.fin 20)), some (JsVal.str "Coffee"), none, none⟩ []).2.map
          (fun o => List.lookup "category" o)) = [none] ∧
    (Legacy.handler 5 "2025-12-01" "GET" emptyBody
        (Legacy.handler 5 "2025-12-01" "POST"
          ⟨some (JsVal.num (JsNum.fin 20)), some (JsVal.str "Coffee"), none, none⟩ []).2).1.body =
      Legacy.RBody.json
        [("message", Legacy.RVal.prim
            (JsVal.str "Data retrieved (In-memory, NOT persistent on Vercel).")),
         ("data", Legacy.RVal.objs
            (Legacy.handler 5 "2025-12-01" "POST"
              ⟨some (JsVal.num (JsNum.fin 20)), some (JsVal.str "Coffee"), none, none⟩ []).2)] := by
  refine ⟨by decide, by decide, rfl⟩

/-- Claim C4, amended: in `src/api/expenses.js`, every POST passing
validation returns 201; its stored record's `category` is "Uncategorized"
when `category` is absent and its `date` is the current date when `date` is
absent; and the subsequent GET reports `total` one larger than before.  The
`src/unnamed/part_000` variant stores no `category` key and its GET carries
no `total`. -/
theorem C4_amended (today : String) (es : List Api.Expense) (b : Body)
    (hamt : b.amount.isSome = true) (hdsc : b.description.isSome = true)
    (h2 : (parseFloat (b.amount.getD JsVal.null)).isNan = false)
    (h3 : (parseFloat (b.amount.getD JsVal.null)).leZero = false) :
    (Api.handlePOST today es b).1.status = 201 ∧
    (∀ (m : String) (e : Api.Expense),
      (Api.handlePOST today es b).1.body = Api.RespBody.postOk m e →
      (b.category = none → e.category = JsVal.str "Uncategorized") ∧
      (b.date = none → e.date = JsVal.str today)) ∧
    (Api.handleGET (Api.handlePOST today es b).2).1.body =
      Api.RespBody.getOk ((Api.handlePOST today es b).2.reverse) (es.length + 1) := by
  have hmiss : Api.missingFields b = [] := by
    rw [Api.missingFields_eq, hamt, hdsc]
    rfl
  have hpost := Api.handlePOST_success today es b hmiss h2 h3
  refine ⟨by rw [hpost], ?_, ?_⟩
  · intro m e h
    obtain ⟨he, _, _⟩ := Api.handlePOST_postOk_inv today es b m e h
    rw [he]
    constructor
    · intro hc
      simp [jsOrDefault, hc]
    · intro hd
      simp [jsOrDefault, hd]
  · rw [hpost]
    simp [Api.handleGET]

/-- Witness for the amended claim C4: `{amount: 20, description: "Coffee"}`
on the seeded store gives 201 with category "Uncategorized" and the oracle
date, and the next GET reports total 3. -/
theorem C4_witness :
    (Api.handlePOST "2025-12-01" Api.seedExpenses
        ⟨some (JsVal.num (JsNum.fin 20)), some (JsVal.str "Coffee"), none, none⟩).1.status = 201 ∧
    ((⟨3, JsNum.fin 20, JsVal.str "Coffee", JsVal.str "Uncategorized",
        JsVal.str "2025-12-01"⟩ : Api.Expense).category = JsVal.str "Uncategorized" ∧
      (⟨3, JsNum.fin 20, JsVal.str "Coffee", JsVal.str "Uncategorized",
        JsVal.str "2025-12-01"⟩ : Api.Expense).date = JsVal.str "2025-12-01") ∧
    (Api.handleGET (Api.handlePOST "2025-12-01" Api.seedExpenses
        ⟨some (JsVal.num (JsNum.fin 20)), some (JsVal.str "Coffee"), none, none⟩).2).1.body =
      Api.RespBody.getOk ((Api.handlePOST "2025-12-01" Api.seedExpenses
        ⟨some (JsVal.num (JsNum.fin 20)), some (JsVal.str "Coffee"), none, none⟩).2.reverse)
        (Api.seedExpenses.length + 1) := by
  have h := C4_amended "2025-12-01" Api.seedExpenses
    ⟨some (JsVal.num (JsNum.fin 20)), some (JsVal.str "Coffee"), none, none⟩
    (by decide) (by decide) (by decide) (by decide)
  refine ⟨h.1, ?_, h.2.2⟩
  have hme := h.2.1 "Expense added successfully"
    ⟨3, JsNum.fin 20, JsVal.str "Coffee", JsVal.str "Uncategorized", JsVal.str "2025-12-01"⟩
    (by decide)
  exact ⟨hme.1 rfl, hme.2 rfl⟩

/-- Claim C5, counterexample: the claim states that for every store state
the list operation's success response carries a `total` member equal to the
record count.  The GET of `src/unnamed/part_000` on its fresh (empty) store
returns 200 with only `message` and `data` members: there is no `total` key
in the response object. -/
theorem C5_counterexample :
    (Legacy.handler 0 "2025-12-01" "GET" emptyBody []).1.status = 200 ∧
    (Legacy.handler 0 "2025-12-01" "GET" emptyBody []).1.body =
      Legacy.RBody.json
        [("message", Legacy.RVal.prim
            (JsVal.str "Data retrieved (In-memory, NOT persistent on Vercel).")),
         ("data", Legacy.RVal.objs [])] ∧
    List.lookup "total"
        [("message", Legacy.RVal.prim
            (JsVal.str "Data retrieved (In-memory, NOT persistent on Vercel).")),
         ("data", Legacy.RVal.objs ([] : List Legacy.Obj))] = none := by
  refine ⟨by decide, rfl, by decide⟩

/-- Claim C5, amended: in `src/api/expenses.js`, GET always returns 200
with every record currently held (in reversed insertion order) and `total`
equal to the record count, and on the fresh seeded store it returns exactly
the two seeded records with total 2; the `src/unnamed/part_000` GET returns
200 with every record in insertion order under `message`/`data` but carries
no `total` member. -/
theorem C5_amended :
    (∀ es : List Api.Expense,
      Api.handleGET es = (⟨200, Api.RespBody.getOk es.reverse es.length⟩, es)) ∧
    Api.handleGET Api.seedExpenses =
      (⟨200, Api.RespBody.getOk Api.seedExpenses.reverse 2⟩, Api.seedExpenses) ∧
    (∀ (now : ℕ) (today : String) (b : Body) (es : List Legacy.Obj),
      Legacy.handler now today "GET" b es =
        (⟨200, Legacy.RBody.json
          [("message", Legacy.RVal.prim
              (JsVal.str "Data retrieved (In-memory, NOT persistent on Vercel).")),
           ("data", Legacy.RVal.objs es)]⟩, es)) :=
  ⟨fun _ => rfl, rfl, fun _ _ _ _ => rfl⟩

/-- Claim C6, counterexample: the claim states that a create request whose
`description` is present but empty is not stored.  `src/api/expenses.js`
checks only presence of the key, so a POST with `amount: 5` and
`description: ""` returns 201 and appends a record whose stored description
is the empty string. -/
theorem C6_counterexample :
    Api.handlePOST "2025-12-01" Api.seedExpenses
        ⟨some (JsVal.num (JsNum.fin 5)), some (JsVal.str ""), none, none⟩ =
      (⟨201, Api.RespBody.postOk "Expense added successfully"
          ⟨3, JsNum.fin 5, JsVal.str "", JsVal.str "Uncategorized", JsVal.str "2025-12-01"⟩⟩,
        Api.seedExpenses ++
          [⟨3, JsNum.fin 5, JsVal.str "", JsVal.str "Uncategorized",
            JsVal.str "2025-12-01"⟩]) := rfl

/-- Claim C6, amended: `src/api/expenses.js` stores whatever `description`
value the request carries — including the empty string — whenever the
request passes validation; only the `src/unnamed/part_000` variant rejects
an empty (falsy) `description`, with a 400 and an unchanged collection. -/
theorem C6_amended :
    (∀ (today : String) (es : List Api.Expense) (b : Body) (m : String)
        (e : Api.Expense),
      (Api.handlePOST today es b).1.body = Api.RespBody.postOk m e →
      e.description = b.description.getD JsVal.null) ∧
    (∀ (now : ℕ) (today : String) (b : Body) (es : List Legacy.Obj),
      b.description = some (JsVal.str "") →
      (Legacy.handler now today "POST" b es).1.status = 400 ∧
      (Legacy.handler now today "POST" b es).2 = es) := by
  constructor
  · intro today es b m e h
    obtain ⟨he, _, _⟩ := Api.handlePOST_postOk_inv today es b m e h
    rw [he]
  · intro now today b es hd
    have ht : Legacy.truthyOpt b.description = false := by
      rw [hd]
      rfl
    constructor <;> simp [Legacy.handler, ht]

/-- Witness for the amended claim C6: a POST with empty description and
amount 7 stores the empty description in `src/api/expenses.js`, while the
legacy handler rejects the same request with 400 and leaves its collection
empty. -/
theorem C6_witness :
    (⟨3, JsNum.fin 7, JsVal.str "", JsVal.str "Uncategorized",
        JsVal.str "2025-12-02"⟩ : Api.Expense).description =
      ((⟨some (JsVal.num (JsNum.fin 7)), some (JsVal.str ""), none, none⟩ : Body).description.getD
        JsVal.null) ∧
    (Legacy.handler 5 "2025-12-02" "POST"
        ⟨some (JsVal.num (JsNum.fin 7)), some (JsVal.str ""), none, none⟩ []).1.status = 400 ∧
    (Legacy.handler 5 "2025-12-02" "POST"
        ⟨some (JsVal.num (JsNum.fin 7)), some (JsVal.str ""), none, none⟩ []).2 = [] :=
  ⟨C6_amended.1 "2025-12-02" Api.seedExpenses
      ⟨some (JsVal.num (JsNum.fin 7)), some (JsVal.str ""), none, none⟩
      "Expense added successfully"
      ⟨3, JsNum.fin 7, JsVal.str "", JsVal.str "Uncategorized", JsVal.str "2025-12-02"⟩
      (by decide),
    (C6_amended.2 5 "2025-12-02"
      ⟨some (JsVal.num (JsNum.fin 7)), some (JsVal.str ""), none, none⟩ [] rfl).1,
    (C6_amended.2 5 "2025-12-02"
      ⟨some (JsVal.num (JsNum.fin 7)), some (JsVal.str ""), none, none⟩ [] rfl).2⟩

/-- Claim C7: in `src/api/expenses.js`, an unparseable POST body is
resolved to the empty object by `parseBody`, which then fails the
required-field check: the handler returns 400 reporting both `amount` and
`description` as missing, on any collection state, leaving it unchanged —
there is no distinct error path. -/
theorem C7_unparseable_body (today : String) (es : List Api.Expense) :
    Api.handler today "POST" none es =
      (⟨400, Api.RespBody.missingErr "Missing required fields"
          ["amount", "description"]⟩, es) := rfl

/-- Claim C8: every error response (400, 405, or 500) of either handler
leaves the collection exactly as it was. -/
theorem C8_errors_leave_collection_unchanged :
    (∀ (today method : String) (raw : Option Body) (es : List Api.Expense),
      ((Api.handler today method raw es).1.status = 400 ∨
        (Api.handler today method raw es).1.status = 405 ∨
        (Api.handler today method raw es).1.status = 500) →
      (Api.handler today method raw es).2 = es) ∧
    (∀ (now : ℕ) (today method : String) (b : Body) (es : List Legacy.Obj),
      ((Legacy.handler now today method b es).1.status = 400 ∨
        (Legacy.handler now today method b es).1.status = 405 ∨
        (Legacy.handler now today method b es).1.status = 500) →
      (Legacy.handler now today method b es).2 = es) := by
  constructor
  · intro today method raw es h
    exact Api.handler_not_201_frame today method raw es (by rcases h with h | h | h <;> omega)
  · intro now today method b es h
    exact Legacy.legacyHandler_not_201_frame now today method b es (by rcases h with h | h | h <;> omega)

/-- Witness for claim C8: a DELETE request (405 in both handlers) leaves
the seeded collection and the empty legacy collection unchanged. -/
theorem C8_witness :
    (Api.handler "2025-12-01" "DELETE" none Api.seedExpenses).2 = Api.seedExpenses ∧
    (Legacy.handler 5 "2025-12-01" "DELETE" emptyBody []).2 = [] :=
  ⟨C8_errors_leave_collection_unchanged.1 "2025-12-01" "DELETE" none Api.seedExpenses
      (Or.inr (Or.inl (by decide))),
    C8_errors_leave_collection_unchanged.2 5 "2025-12-01" "DELETE" emptyBody []
      (Or.inr (Or.inl (by decide)))⟩

/-- Claim C9: the list operation has no side effects: after a GET the
collection is exactly the sequence it was before, in `handleGET` itself (the
variant serving reversed insertion order), through the full dispatcher, and
in the `src/unnamed/part_000` variant. -/
theorem C9_get_no_side_effects :
    (∀ es : List Api.Expense, (Api.handleGET es).2 = es) ∧
    (∀ (today : String) (raw : Option Body) (es : List Api.Expense),
      (Api.handler today "GET" raw es).2 = es) ∧
    (∀ (now : ℕ) (today : String) (b : Body) (es : List Legacy.Obj),
      (Legacy.handler now today "GET" b es).2 = es) :=
  ⟨fun _ => rfl, fun _ _ _ => rfl, fun _ _ _ _ => rfl⟩

/-- Claim C10: in `src/api/expenses.js`, defaulting of `category` and
`date` is driven by JavaScript truthiness, so it also triggers on fields
that are present but falsy: a stored record built from a body whose
`category` and `date` are present but falsy (for example empty strings)
carries "Uncategorized" and the current date. -/
theorem C10_falsy_defaulting (today : String) (es : List Api.Expense) (b : Body)
    (v w : JsVal) (hc : b.category = some v) (hv : v.truthy = false)
    (hd : b.date = some w) (hw : w.truthy = false) :
    ∀ (m : String) (e : Api.Expense),
      (Api.handlePOST today es b).1.body = Api.RespBody.postOk m e →
      e.category = JsVal.str "Uncategorized" ∧ e.date = JsVal.str today := by
  intro m e h
  obtain ⟨he, _, _⟩ := Api.handlePOST_postOk_inv today es b m e h
  rw [he]
  constructor
  · simp [jsOrDefault, hc, hv]
  · simp [jsOrDefault, hd, hw]

/-- Witness for claim C10: a POST whose `category` and `date` are present
but empty strings stores "Uncategorized" and the oracle date. -/
theorem C10_witness :
    (⟨3, JsNum.fin 20, JsVal.str "Milk", JsVal.str "Uncategorized",
        JsVal.str "2025-12-03"⟩ : Api.Expense).category = JsVal.str "Uncategorized" ∧
    (⟨3, JsNum.fin 20, JsVal.str "Milk", JsVal.str "Uncategorized",
        JsVal.str "2025-12-03"⟩ : Api.Expense).date = JsVal.str "2025-12-03" :=
  C10_falsy_defaulting "2025-12-03" Api.seedExpenses
    ⟨some (JsVal.num (JsNum.fin 20)), some (JsVal.str "Milk"),
      some (JsVal.str ""), some (JsVal.str "")⟩
    (JsVal.str "") (JsVal.str "") rfl (by decide) rfl (by decide)
    "Expense added successfully"
    ⟨3, JsNum.fin 20, JsVal.str "Milk", JsVal.str "Uncategorized", JsVal.str "2025-12-03"⟩
    (by decide)
